import Mathlib

/-!
# Verification of the afk-master Authentication & Session Lifecycle subsystem

Shallow embedding of the auth service (`src/modules/auth/auth.service.ts`),
the token utilities (`src/utils/token.ts`), the refresh-token table schema
(`src/modules/auth/user_tokens.schema.ts`), the user table schema
(`src/modules/user/user.schema.ts`) and the error-classification middleware
(`src/middleware/error.middleware.ts`).

Modelling conventions:
* Timestamps are natural numbers of milliseconds (`Date.now()`).
* A JavaScript `string` value that may be `null`/`undefined` is an
  `Option String`; JS truthiness of strings (`''`, `null`, `undefined` are
  falsy) is `jsTruthy` / `jsOr`.
* A JWT produced by `jwt.sign` is the structured value `TokenStr.jwt payload
  secret exp`; an arbitrary non-JWT string (e.g. the empty string) is
  `TokenStr.raw s`. `jwt.verify` throws on a wrong secret or a passed `exp`,
  modelled as `Except`.
* `crypto.createHash("sha256")` is a deterministic, collision-free digest;
  it is modelled as the identity on the abstract token domain.
* `bcrypt.hash` with a fixed cost is modelled as a deterministic injective
  encoding, and `bcrypt.compare pw h` succeeds exactly when `h` is the hash
  of `pw`.
* The Postgres tables behind drizzle are lists of rows inside `DBState`;
  `select ... where p ... limit 1` is `(rows.filter p).head?`, `delete where p`
  removes every matching row, `update ... set ... where p` maps over rows.
  Generated `uuid` primary keys are drawn from a fresh counter `nextId`.
  `DBState.insertOk` models whether the store accepts the next insert
  (infrastructure availability); a failed insert throws.
* A thrown exception is `Except.error`; since the database writes performed
  before a throw are not rolled back, every service operation returns a pair
  `(Except ServiceError α) × DBState` whose state component survives errors.
-/

namespace Afk

/-- Milliseconds since the epoch, as produced by `Date.now()`. -/
abbrev Millis := Nat

/-- The claims `jwt.sign` embeds: `{ id: user.id, email: user.email }`
(`src/utils/token.ts`). -/
structure JwtPayload where
  id : Nat
  email : String
deriving DecidableEq, Repr

/-- The two process-wide signing secrets `config.ACCESS_SECRET` and
`config.REFRESH_SECRET` (`src/config/env.ts`), distinct by construction. -/
inductive Secret where
  | access
  | refresh
deriving DecidableEq, Repr

/-- A JavaScript string presented as a token: either a well-formed JWT
(payload, signing secret, embedded expiry in ms) or an arbitrary raw string
that is not a JWT (for instance the empty string). -/
inductive TokenStr where
  | jwt (payload : JwtPayload) (secret : Secret) (exp : Millis)
  | raw (s : String)
deriving DecidableEq, Repr

/-- JS falsiness of a token-string argument: only the empty string is falsy
(`if (!token)`). -/
def TokenStr.isEmpty : TokenStr → Bool
  | .raw "" => true
  | _ => false

/-- JS truthiness of a nullable string: `null`/`undefined` and `''` are falsy. -/
def jsTruthy : Option String → Bool
  | none => false
  | some s => !(s == "")

/-- JS `s || d` on a nullable string. -/
def jsOr (s : Option String) (d : String) : String :=
  match s with
  | none => d
  | some v => if v == "" then d else v

/-- A row of the `users` table (`src/modules/user/user.schema.ts`):
`password`, `googleId`, `avatar` are nullable columns. -/
structure User where
  id : Nat
  email : String
  name : String
  password : Option String
  googleId : Option String
  authProvider : Option String
  avatar : Option String
  lastLoginAt : Millis
  createdAt : Millis
deriving DecidableEq, Repr

/-- A row of the `refresh_tokens` table
(`src/modules/auth/user_tokens.schema.ts`): `token_hash` is `notNull` but
carries no uniqueness constraint; `device` is nullable; `revoked` defaults
to `false`. -/
structure RefreshTokenRecord where
  id : Nat
  userId : Nat
  tokenHash : TokenStr
  device : Option String
  expiresAt : Millis
  revoked : Bool
  createdAt : Millis
deriving DecidableEq, Repr

/-- The mutable database state the service operates on, plus an oracle
`insertOk` for whether the store accepts the next `insert` (an unavailable
store makes `insert` throw). -/
structure DBState where
  users : List User
  refreshTokens : List RefreshTokenRecord
  nextId : Nat
  insertOk : Bool
deriving DecidableEq, Repr

/-- `AppError` from `src/middleware/error.middleware.ts`: an HTTP status
code and a message. -/
structure AppError where
  statusCode : Nat
  message : String
deriving DecidableEq, Repr

/-- The errors `jwt.verify` throws: `JsonWebTokenError` (bad signature) and
`TokenExpiredError`. Neither carries a Postgres-style `code` field. -/
inductive JwtError where
  | invalidSignature
  | expired
deriving DecidableEq, Repr

/-- An exception escaping a service method: a thrown `AppError`, a raw error
thrown by `jwt.verify`, or a database-driver error (the store rejecting a
write). -/
inductive ServiceError where
  | app (e : AppError)
  | jwtErr (e : JwtError)
  | dbDown
deriving DecidableEq, Repr

/-- `{ accessToken, refreshToken }` (`TokenResponse` in `auth.types`). -/
structure TokenResponse where
  refreshToken : TokenStr
  accessToken : TokenStr
deriving DecidableEq, Repr

/-! ## Token utilities (`src/utils/token.ts`) -/

/-- `generateToken`: `jwt.sign({id, email}, config.ACCESS_SECRET,
{expiresIn: "15m"})`. -/
def generateToken (user : User) (now : Millis) : TokenStr :=
  .jwt ⟨user.id, user.email⟩ .access (now + 15 * 60 * 1000)

/-- `generateRefreshToken`: `jwt.sign({id, email}, config.REFRESH_SECRET,
{expiresIn: "7d"})`. -/
def generateRefreshToken (user : User) (now : Millis) : TokenStr :=
  .jwt ⟨user.id, user.email⟩ .refresh (now + 7 * 24 * 60 * 60 * 1000)

/-- `hashToken`: SHA-256 hex digest of the token string — deterministic and
collision-free, modelled as the identity on the abstract token domain. -/
def hashToken (t : TokenStr) : TokenStr := t

/-- `jwt.verify(token, secret)`: throws `JsonWebTokenError` when the token is
not a JWT signed with `secret`, throws `TokenExpiredError` when the embedded
expiry has passed, otherwise returns the payload. -/
def jwtVerify (t : TokenStr) (sec : Secret) (now : Millis) :
    Except JwtError JwtPayload :=
  match t with
  | .raw _ => .error .invalidSignature
  | .jwt p s e =>
    if s ≠ sec then .error .invalidSignature
    else if e ≤ now then .error .expired
    else .ok p

/-- `verifyToken`: `jwt.verify(token, config.REFRESH_SECRET)`. Note that it
THROWS on failure rather than returning `null`. -/
def verifyToken (t : TokenStr) (now : Millis) : Except JwtError JwtPayload :=
  jwtVerify t .refresh now

/-- `bcrypt.hash(password, 10)`, modelled as a deterministic injective
encoding. -/
def bcryptHash (pw : String) : String := "bcrypt2b10" ++ pw

/-- `bcrypt.compare(candidate, stored)`: succeeds exactly when `stored` is
the hash of `candidate`. -/
def bcryptCompare (candidate stored : String) : Bool :=
  stored == bcryptHash candidate

/-! ## Error middleware classification (`src/middleware/error.middleware.ts`)

`errorHandler` maps an escaped error to the HTTP status sent to the caller:
an `AppError` keeps its own status; a database error is classified by its
`code` field; any other `Error` — in particular the `JsonWebTokenError` /
`TokenExpiredError` thrown by `jwt.verify`, which has no `code` field —
falls through to the generic branch with status 500 Internal Server Error. -/

/-- The HTTP status `errorHandler` assigns to an escaped service error. -/
def errorHandlerStatus : ServiceError → Nat
  | .app e => e.statusCode
  | .jwtErr _ => 500
  | .dbDown => 500

/-! ## Database operations (drizzle calls as list operations) -/

/-- The `where` clause `and(eq(refreshTokens.tokenHash, h),
eq(refreshTokens.revoked, false))`. -/
def liveWithHash (h : TokenStr) (r : RefreshTokenRecord) : Bool :=
  r.tokenHash == h && r.revoked == false

/-- `db.select().from(refreshTokens).where(and(eq(tokenHash, h),
eq(revoked, false))).limit(1)`. -/
def findLiveByHash (st : DBState) (h : TokenStr) : Option RefreshTokenRecord :=
  (st.refreshTokens.filter (liveWithHash h)).head?

/-- `db.delete(refreshTokens).where(eq(refreshTokens.id, rid))`. -/
def deleteRecordById (st : DBState) (rid : Nat) : DBState :=
  { st with refreshTokens := st.refreshTokens.filter (fun r => !(r.id == rid)) }

/-- `db.delete(refreshTokens).where(eq(refreshTokens.tokenHash, h))`. -/
def deleteRecordsByHash (st : DBState) (h : TokenStr) : DBState :=
  { st with refreshTokens := st.refreshTokens.filter (fun r => !(r.tokenHash == h)) }

/-- `db.select().from(users).where(eq(users.email, e)).limit(1)`. -/
def findUserByEmail (st : DBState) (e : String) : Option User :=
  (st.users.filter (fun u => u.email == e)).head?

/-- `db.select().from(users).where(eq(users.id, uid)).limit(1)`. -/
def findUserById (st : DBState) (uid : Nat) : Option User :=
  (st.users.filter (fun u => u.id == uid)).head?

/-- `db.update(users).set({lastLoginAt: new Date()}).where(eq(users.id, uid))`. -/
def touchLastLogin (st : DBState) (uid : Nat) (now : Millis) : DBState :=
  { st with users := st.users.map (fun u =>
      if u.id == uid then { u with lastLoginAt := now } else u) }

/-! ## AuthService (`src/modules/auth/auth.service.ts`) -/

/-- `_generateAuthResponse(user, device)` (lines 18–35): generate the access
and refresh tokens, insert a ledger record for the refresh token — device
defaulted via `device || 'Unknown Device'`, `expiresAt` seven days out —
update the user's `lastLoginAt`, and return the pair. When the store rejects
the insert (`insertOk = false`) the insert throws, so neither the record nor
the `lastLoginAt` update is written. -/
def generateAuthResponse (st : DBState) (user : User) (device : Option String)
    (now : Millis) : Except ServiceError TokenResponse × DBState :=
  let accessToken := generateToken user now
  let refreshToken := generateRefreshToken user now
  let hashedRefreshToken := hashToken refreshToken
  if st.insertOk then
    let newRec : RefreshTokenRecord :=
      { id := st.nextId
        userId := user.id
        tokenHash := hashedRefreshToken
        device := some (jsOr device "Unknown Device")
        expiresAt := now + 7 * 24 * 60 * 60 * 1000
        revoked := false
        createdAt := now }
    let st1 := { st with refreshTokens := st.refreshTokens ++ [newRec],
                         nextId := st.nextId + 1 }
    (.ok { refreshToken := refreshToken, accessToken := accessToken },
     touchLastLogin st1 user.id now)
  else
    (.error .dbDown, st)

/-- `login(data)` (lines 77–95): 404 when no user has the email; 400 "Please
login with Google" when the stored password is absent; 401 on a bcrypt
mismatch; otherwise `_generateAuthResponse`. -/
def login (st : DBState) (email password : String) (device : Option String)
    (now : Millis) : Except ServiceError TokenResponse × DBState :=
  match findUserByEmail st email with
  | none => (.error (.app ⟨404, "User not found"⟩), st)
  | some user =>
    if !(jsTruthy user.password) then
      (.error (.app ⟨400, "Please login with Google"⟩), st)
    else if !(bcryptCompare password (user.password.getD "")) then
      (.error (.app ⟨401, "Invalid password"⟩), st)
    else
      generateAuthResponse st user device now

/-- The verified Google ID-token payload fields the service destructures:
`{ email, name, sub, picture }`. -/
structure GooglePayload where
  email : String
  name : Option String
  sub : String
  picture : Option String
deriving DecidableEq, Repr

/-- The resolve-or-link step of `loginWithGoogle` (lines 55–71): look the
user up by the verified email; if absent, create a federated identity
(`authProvider = 'google'`, no password); if present but not yet linked
(`!user.googleId`), attach the Google subject id and switch `authProvider`
to `'google'`; if already linked, leave the row untouched. Returns the
(possibly stale) user variable the method continues with, and the state. -/
def resolveOrCreateGoogleUser (st : DBState) (payload : GooglePayload)
    (now : Millis) : User × DBState :=
  match findUserByEmail st payload.email with
  | none =>
    let newUser : User :=
      { id := st.nextId
        email := payload.email
        name := jsOr payload.name "User"
        password := none
        googleId := some payload.sub
        authProvider := some "google"
        avatar := payload.picture
        lastLoginAt := now
        createdAt := now }
    (newUser, { st with users := st.users ++ [newUser], nextId := st.nextId + 1 })
  | some user =>
    if !(jsTruthy user.googleId) then
      (user,
       { st with users := st.users.map (fun u =>
           if u.id == user.id then
             { u with googleId := some payload.sub, authProvider := some "google" }
           else u) })
    else (user, st)

/-- `loginWithGoogle` from the point where the Google ticket has been
verified and yielded `payload` (the verification itself is an external
network call to Google). -/
def loginWithGoogleVerified (st : DBState) (payload : GooglePayload)
    (device : Option String) (now : Millis) :
    Except ServiceError TokenResponse × DBState :=
  let resolved := resolveOrCreateGoogleUser st payload now
  generateAuthResponse resolved.2 resolved.1 device now

/-- `refresh(token)` (lines 123–154). `verifyToken` (= `jwt.verify`) throws
on a bad signature or a passed embedded expiry, so the
`if (!decodedToken)` null-guard on line 127 is unreachable and a
verification failure escapes as a raw `JsonWebTokenError`. Otherwise: look
up the live (unrevoked) ledger record by the token's hash; none → 401
reuse-or-invalid; an expired record is deleted and 401 "Refresh token
expired" is thrown; otherwise the record is deleted, the user loaded (404 if
missing — with the record already gone), and a new pair is issued with
`storedRefreshToken.device || 'Unknown'` as the device label. -/
def refresh (st : DBState) (token : TokenStr) (now : Millis) :
    Except ServiceError TokenResponse × DBState :=
  if token.isEmpty then (.error (.app ⟨401, "No token provided"⟩), st)
  else
    match verifyToken token now with
    | .error e => (.error (.jwtErr e), st)
    | .ok _ =>
      let incomingTokenHash := hashToken token
      match findLiveByHash st incomingTokenHash with
      | none =>
        (.error (.app ⟨401, "Refresh token reuse detected or invalid"⟩), st)
      | some storedRefreshToken =>
        if storedRefreshToken.expiresAt < now then
          (.error (.app ⟨401, "Refresh token expired"⟩),
           deleteRecordById st storedRefreshToken.id)
        else
          let st1 := deleteRecordById st storedRefreshToken.id
          match findUserById st1 storedRefreshToken.userId with
          | none => (.error (.app ⟨404, "User not found"⟩), st1)
          | some user =>
            generateAuthResponse st1 user
              (some (jsOr storedRefreshToken.device "Unknown")) now

/-- `logout(refreshTokenString)` (lines 156–164): an empty token string
throws 400 "Token required"; otherwise every ledger record whose
`tokenHash` matches is deleted and `{ success: true }` is returned. -/
def logout (st : DBState) (refreshTokenString : TokenStr) :
    Except ServiceError Bool × DBState :=
  if refreshTokenString.isEmpty then
    (.error (.app ⟨400, "Token required"⟩), st)
  else
    let tokenHashToFind := hashToken refreshTokenString
    (.ok true, deleteRecordsByHash st tokenHashToFind)

/-! ## Concrete fixtures

A local-password user, the refresh token issued for them at time 0 (so its
embedded expiry and the ledger record's `expiresAt` are both
`7 * 24 * 60 * 60 * 1000 = 604800000` ms), the corresponding ledger record
(with the nullable `device` column left `NULL`), and the database states the
witnesses and counterexamples evaluate the service on. -/

/-- A user registered with a local password. -/
def uA : User :=
  { id := 1
    email := "a@x.com"
    name := "A"
    password := some (bcryptHash "pw123456")
    googleId := none
    authProvider := some "local"
    avatar := none
    lastLoginAt := 0
    createdAt := 0 }

/-- The refresh token issued to `uA` at time 0. -/
def tokA : TokenStr := .jwt ⟨1, "a@x.com"⟩ .refresh 604800000

/-- The ledger record persisted for `tokA`, its `device` column `NULL`. -/
def recA : RefreshTokenRecord :=
  { id := 10
    userId := 1
    tokenHash := hashToken tokA
    device := none
    expiresAt := 604800000
    revoked := false
    createdAt := 0 }

/-- A database holding `uA` and the ledger record for `tokA`. -/
def stA : DBState :=
  { users := [uA], refreshTokens := [recA], nextId := 20, insertOk := true }

/-- A live ledger record whose fingerprint collides with the refresh token
`_generateAuthResponse` is about to issue for `uA` at time 0. -/
def recDup : RefreshTokenRecord :=
  { id := 11
    userId := 1
    tokenHash := hashToken (generateRefreshToken uA 0)
    device := some "d1"
    expiresAt := 999999999
    revoked := false
    createdAt := 0 }

/-- A database already holding a live record with the colliding fingerprint. -/
def stDup : DBState :=
  { users := [uA], refreshTokens := [recDup], nextId := 20, insertOk := true }

/-- A crafted token whose embedded expiry (999999) lies beyond its ledger
record's `expiresAt` (5), so that signature verification can still pass when
the record is already expired. -/
def tokB : TokenStr := .jwt ⟨1, "a@x.com"⟩ .refresh 999999

/-- The ledger record for `tokB`, expired at any time past 5 ms. -/
def recB : RefreshTokenRecord :=
  { id := 12
    userId := 1
    tokenHash := hashToken tokB
    device := some "laptop"
    expiresAt := 5
    revoked := false
    createdAt := 0 }

/-- A database holding `uA` and the expired-record fixture `recB`. -/
def stB : DBState :=
  { users := [uA], refreshTokens := [recB], nextId := 30, insertOk := true }

/-- A database holding the ledger record for `tokA` but no user row for its
`userId` — the user lookup after consumption fails. -/
def stC : DBState :=
  { users := [], refreshTokens := [recA], nextId := 40, insertOk := true }

/-- A federation-only user: no password hash, already linked to Google. -/
def uG : User :=
  { id := 2
    email := "g@x.com"
    name := "G"
    password := none
    googleId := some "gsub0"
    authProvider := some "google"
    avatar := none
    lastLoginAt := 0
    createdAt := 0 }

/-- A database holding only the federation-only user `uG`. -/
def stG : DBState :=
  { users := [uG], refreshTokens := [], nextId := 50, insertOk := true }

/-- An empty database. -/
def stEmpty : DBState :=
  { users := [], refreshTokens := [], nextId := 0, insertOk := true }

/-- Verified Google claims whose email matches `uA` (not yet linked). -/
def gpA : GooglePayload :=
  { email := "a@x.com", name := some "A", sub := "gsub", picture := none }

/-- Verified Google claims whose email matches `uG` (already linked). -/
def gpG : GooglePayload :=
  { email := "g@x.com", name := some "G", sub := "gsub9", picture := none }

/-! ## Helper lemmas -/

/-- A token that `jwt.verify` accepts is in particular not the empty string. -/
theorem verifyToken_ok_not_empty {t : TokenStr} {now : Millis} {p : JwtPayload}
    (h : verifyToken t now = .ok p) : t.isEmpty = false := by
  cases t with
  | jwt q sec e => rfl
  | raw s => simp [verifyToken, jwtVerify] at h

/-- Deleting the only row of a filtered selection by its id empties the
selection. -/
theorem filter_delete_of_filter_singleton (p : RefreshTokenRecord → Bool)
    (l : List RefreshTokenRecord) (r : RefreshTokenRecord)
    (h : l.filter p = [r]) :
    (l.filter (fun x => !(x.id == r.id))).filter p = [] := by
  rw [List.filter_eq_nil_iff]
  intro a ha hpa
  rw [List.mem_filter] at ha
  obtain ⟨hal, hid⟩ := ha
  have hmem : a ∈ l.filter p := List.mem_filter.mpr ⟨hal, hpa⟩
  rw [h, List.mem_singleton] at hmem
  subst hmem
  simp at hid

/-- Collapsing the two JS defaults on the refresh path: the value
`storedDevice || 'Unknown'` is never falsy, so the subsequent
`device || 'Unknown Device'` default inside `_generateAuthResponse` never
fires. -/
theorem jsOr_unknown_chain (o : Option String) :
    jsOr (some (jsOr o "Unknown")) "Unknown Device" = jsOr o "Unknown" := by
  cases o with
  | none => rfl
  | some v =>
    by_cases h : v = ""
    · subst h; rfl
    · simp [jsOr, h]

/-- A refresh whose token verifies but matches no live ledger record fails
with the 401 reuse-or-invalid error and leaves the state untouched. -/
theorem refresh_no_live_record {st : DBState} {t : TokenStr} {now : Millis}
    {p : JwtPayload}
    (hver : verifyToken t now = .ok p)
    (hnone : findLiveByHash st (hashToken t) = none) :
    refresh st t now =
      (.error (.app ⟨401, "Refresh token reuse detected or invalid"⟩), st) := by
  have hne := verifyToken_ok_not_empty hver
  simp [refresh, hne, hver, hnone]

/-! ## Claim theorems -/

/-- C1 (counterexample): refresh tokens are not single-use as stated. Two
failure modes, both at concrete inputs: (i) `tokA` was issued to `uA` at
time 0; refreshing it at time 0 re-issues a byte-identical refresh token
(same payload, same secret, same expiry), so a second `refresh` call
presenting the very same token succeeds again instead of returning the 401
reuse-or-invalid error; (ii) after a successful refresh at time 5, a second
call at time 604800001 — past the token's embedded expiry — escapes as the
raw `jwt.verify` expiry error, not the 401 reuse-or-invalid error. -/
theorem refresh_single_use_counterexample :
    generateRefreshToken uA 0 = tokA ∧
    (refresh stA tokA 0).1 = .ok ⟨tokA, generateToken uA 0⟩ ∧
    (refresh (refresh stA tokA 0).2 tokA 0).1 = .ok ⟨tokA, generateToken uA 0⟩ ∧
    (refresh (refresh stA tokA 5).2 tokA 604800001).1 =
      .error (.jwtErr .expired) ∧
    (ServiceError.jwtErr .expired ≠
      .app ⟨401, "Refresh token reuse detected or invalid"⟩) :=
  ⟨rfl, rfl, rfl, rfl, by decide⟩

/-- C2 (counterexample): for a token the system itself issued, the embedded
JWT expiry coincides with the ledger record's `expiresAt`, so a refresh
after expiry is thrown out of `jwt.verify` before the service's own expiry
branch runs: the call fails with the raw jwt expiry error, not the 401
"Refresh token expired" `AppError`, and the ledger record is NOT deleted. -/
theorem refresh_expired_counterexample :
    recA.revoked = false ∧
    recA.expiresAt < 604800001 ∧
    findLiveByHash stA (hashToken tokA) = some recA ∧
    (refresh stA tokA 604800001).1 = .error (.jwtErr .expired) ∧
    (ServiceError.jwtErr .expired ≠ .app ⟨401, "Refresh token expired"⟩) ∧
    (refresh stA tokA 604800001).2 = stA :=
  ⟨rfl, by decide, rfl, rfl, by decide, rfl⟩

/-- C3 (counterexample): `logout` called with the empty string throws a 400
"Token required" `AppError` instead of reporting success, refuting the claim
that logout reports success for every input string. -/
theorem logout_empty_counterexample :
    (logout stA (.raw "")).1 = .error (.app ⟨400, "Token required"⟩) ∧
    (logout stA (.raw "")).1 ≠ .ok true :=
  ⟨rfl, fun h => Except.noConfusion h⟩

/-- C3 (amended): for every nonempty presented token string — never issued,
already consumed, already logged out, or otherwise invalid — `logout`
reports success (`{ success: true }`); only the empty string is rejected,
with a 400 "Token required" error. -/
theorem logout_nonempty_reports_success (st : DBState) (t : TokenStr)
    (h : t.isEmpty = false) :
    (logout st t).1 = .ok true := by
  simp [logout, h]

/-- C3 (witness): logging out with a token that was never issued reports
success. -/
theorem logout_nonempty_reports_success_witness :
    (TokenStr.raw "never-issued").isEmpty = false ∧
    (logout stA (.raw "never-issued")).1 = .ok true :=
  ⟨by decide, logout_nonempty_reports_success stA (.raw "never-issued") (by decide)⟩

/-- C4 (code bug, evaluated at the failing inputs): `verifyToken` is
`jwt.verify`, which throws `JsonWebTokenError` / `TokenExpiredError` instead
of returning `null`, so the `if (!decodedToken)` guard that was meant to
turn a verification failure into a typed 401 `AppError` is dead code. The
raw error escapes `refresh` and, carrying no Postgres-style `code` field and
not being an `AppError`, is classified by the error middleware as a 500
Internal Server Error — an unhandled internal error, not a typed client
failure (which would keep its own status, as the last conjunct shows). -/
theorem refresh_verify_failure_is_internal_error :
    (refresh stA (.raw "garbage") 5).1 = .error (.jwtErr .invalidSignature) ∧
    (refresh stA tokA 604800002).1 = .error (.jwtErr .expired) ∧
    errorHandlerStatus (.jwtErr .invalidSignature) = 500 ∧
    errorHandlerStatus (.jwtErr .expired) = 500 ∧
    errorHandlerStatus (.app ⟨401, "Invalid token signature"⟩) = 401 :=
  ⟨rfl, rfl, rfl, rfl, rfl⟩

/-- C7 (counterexample): the `refresh_tokens` schema declares no uniqueness
on `token_hash`. With a live record already holding the exact fingerprint of
the refresh token about to be issued, `_generateAuthResponse` succeeds —
no `DuplicateFingerprint` conflict — and the ledger ends up with two live
rows bearing the same fingerprint (a silent second row). -/
theorem duplicate_fingerprint_counterexample :
    (stDup.refreshTokens.filter
        (liveWithHash (hashToken (generateRefreshToken uA 0)))).length = 1 ∧
    (generateAuthResponse stDup uA (some "d2") 0).1 =
      .ok ⟨generateRefreshToken uA 0, generateToken uA 0⟩ ∧
    ((generateAuthResponse stDup uA (some "d2") 0).2.refreshTokens.filter
        (liveWithHash (hashToken (generateRefreshToken uA 0)))).length = 2 :=
  ⟨rfl, rfl, rfl⟩

/-- C9 (counterexample): `recA`'s nullable `device` column is `NULL`; the
successful refresh of its token stores the replacement record with device
label `"Unknown"` — the fallback hard-coded on the refresh path — and not
`"Unknown Device"` as claimed. -/
theorem refresh_device_counterexample :
    recA.device = none ∧
    (refresh stA tokA 5).1 = .ok ⟨generateRefreshToken uA 5, generateToken uA 5⟩ ∧
    (refresh stA tokA 5).2.refreshTokens.map RefreshTokenRecord.device =
      [some "Unknown"] ∧
    some "Unknown" ≠ some "Unknown Device" :=
  ⟨rfl, rfl, rfl, by decide⟩

/-- C1 (amended): after a refresh call on a token succeeds, a second refresh
call presenting the same token returns the 401 reuse-or-invalid error and
leaves the state unchanged — provided the fingerprint is unique among live
records (the stated ledger invariant), the refresh token re-issued by the
first call is not byte-identical to the presented one, and the presented
token still passes `jwt.verify` at the time of the second call. The
hypotheses spell out the success conditions of the first call: the token
verifies, its live record is found and unexpired, the record's user exists,
and the store accepts the insert. -/
theorem refresh_single_use (st : DBState) (t : TokenStr) (now now2 : Millis)
    (p p2 : JwtPayload) (r : RefreshTokenRecord) (u : User)
    (hver1 : verifyToken t now = .ok p)
    (huniq : st.refreshTokens.filter (liveWithHash (hashToken t)) = [r])
    (hexp : ¬ r.expiresAt < now)
    (huser : findUserById (deleteRecordById st r.id) r.userId = some u)
    (hins : st.insertOk = true)
    (hfresh : generateRefreshToken u now ≠ t)
    (hver2 : verifyToken t now2 = .ok p2) :
    (refresh st t now).1 = .ok ⟨generateRefreshToken u now, generateToken u now⟩ ∧
    refresh (refresh st t now).2 t now2 =
      (.error (.app ⟨401, "Refresh token reuse detected or invalid"⟩),
       (refresh st t now).2) := by
  have hne := verifyToken_ok_not_empty hver1
  have hfind : findLiveByHash st (hashToken t) = some r := by
    rw [findLiveByHash, huniq]; rfl
  have hins2 : (deleteRecordById st r.id).insertOk = true := hins
  have fact2 : ∃ rec : RefreshTokenRecord,
      (refresh st t now).2.refreshTokens =
        (deleteRecordById st r.id).refreshTokens ++ [rec] ∧
      rec.tokenHash = hashToken (generateRefreshToken u now) := by
    refine ⟨{ id := st.nextId
              userId := u.id
              tokenHash := hashToken (generateRefreshToken u now)
              device := some (jsOr (some (jsOr r.device "Unknown")) "Unknown Device")
              expiresAt := now + 7 * 24 * 60 * 60 * 1000
              revoked := false
              createdAt := now }, ?_, rfl⟩
    simp [refresh, hne, hver1, hfind, hexp, huser, generateAuthResponse,
      hins2, touchLastLogin]
    simp [deleteRecordById]
  constructor
  · simp [refresh, hne, hver1, hfind, hexp, huser, generateAuthResponse, hins2]
  · apply refresh_no_live_record hver2
    obtain ⟨rec, hlist, hhash⟩ := fact2
    have hnil : (refresh st t now).2.refreshTokens.filter
        (liveWithHash (hashToken t)) = [] := by
      rw [hlist, List.filter_append]
      have h1 : (deleteRecordById st r.id).refreshTokens.filter
          (liveWithHash (hashToken t)) = [] := by
        simp only [deleteRecordById]
        exact filter_delete_of_filter_singleton _ _ _ huniq
      have h2 : liveWithHash (hashToken t) rec = false := by
        simp [liveWithHash, hhash, hashToken, hfresh]
      rw [h1]
      simp [h2]
    rw [findLiveByHash, hnil]
    rfl

/-- C1 (witness): `tokA`'s record is consumed by a successful refresh at
time 5 and the second call at time 6 fails with the reuse error. -/
theorem refresh_single_use_witness :
    (refresh stA tokA 5).1 =
      .ok ⟨generateRefreshToken uA 5, generateToken uA 5⟩ ∧
    refresh (refresh stA tokA 5).2 tokA 6 =
      (.error (.app ⟨401, "Refresh token reuse detected or invalid"⟩),
       (refresh stA tokA 5).2) :=
  refresh_single_use stA tokA 5 6 ⟨1, "a@x.com"⟩ ⟨1, "a@x.com"⟩ recA uA
    rfl rfl (by decide) rfl rfl (by decide) rfl

/-- C2 (amended): provided the presented token itself still passes
`jwt.verify` (its embedded expiry has not passed — for tokens issued by this
system that window is empty, since the embedded expiry coincides with the
record's `expiresAt`), a refresh on a live-but-expired ledger record fails
with 401 "Refresh token expired" and deletes the record; a subsequent call
with the same token then fails with 401 reuse-or-invalid. -/
theorem refresh_expired_record_cleanup (st : DBState) (t : TokenStr)
    (now now2 : Millis) (p p2 : JwtPayload) (r : RefreshTokenRecord)
    (hver1 : verifyToken t now = .ok p)
    (huniq : st.refreshTokens.filter (liveWithHash (hashToken t)) = [r])
    (hexp : r.expiresAt < now)
    (hver2 : verifyToken t now2 = .ok p2) :
    refresh st t now =
      (.error (.app ⟨401, "Refresh token expired"⟩), deleteRecordById st r.id) ∧
    refresh (deleteRecordById st r.id) t now2 =
      (.error (.app ⟨401, "Refresh token reuse detected or invalid"⟩),
       deleteRecordById st r.id) := by
  have hne := verifyToken_ok_not_empty hver1
  have hfind : findLiveByHash st (hashToken t) = some r := by
    rw [findLiveByHash, huniq]; rfl
  constructor
  · simp [refresh, hne, hver1, hfind, hexp]
  · apply refresh_no_live_record hver2
    have hnil : (deleteRecordById st r.id).refreshTokens.filter
        (liveWithHash (hashToken t)) = [] := by
      simp only [deleteRecordById]
      exact filter_delete_of_filter_singleton _ _ _ huniq
    rw [findLiveByHash, hnil]
    rfl

/-- C2 (witness): the crafted token `tokB` verifies at time 10 while its
record expired at 5; the call deletes the record and reports 401 expired,
and the retry at time 11 reports 401 reuse-or-invalid. -/
theorem refresh_expired_record_cleanup_witness :
    refresh stB tokB 10 =
      (.error (.app ⟨401, "Refresh token expired"⟩), deleteRecordById stB recB.id) ∧
    refresh (deleteRecordById stB recB.id) tokB 11 =
      (.error (.app ⟨401, "Refresh token reuse detected or invalid"⟩),
       deleteRecordById stB recB.id) :=
  refresh_expired_record_cleanup stB tokB 10 11 ⟨1, "a@x.com"⟩ ⟨1, "a@x.com"⟩
    recB rfl rfl (by decide) rfl

/-- C5: login checks, in this order: 404 "User not found" when no identity
has the email; 400 "Please login with Google" when the identity's stored
password is absent (or empty — JS falsiness); 401 "Invalid password" when
bcrypt comparison fails; otherwise it succeeds with a freshly generated
access/refresh pair (given the store accepts the ledger insert). -/
theorem login_precedence (st : DBState) (email pw : String)
    (device : Option String) (now : Millis) :
    (findUserByEmail st email = none →
      login st email pw device now =
        (.error (.app ⟨404, "User not found"⟩), st)) ∧
    (∀ u, findUserByEmail st email = some u → jsTruthy u.password = false →
      login st email pw device now =
        (.error (.app ⟨400, "Please login with Google"⟩), st)) ∧
    (∀ u stored, findUserByEmail st email = some u → u.password = some stored →
      jsTruthy u.password = true → bcryptCompare pw stored = false →
      login st email pw device now =
        (.error (.app ⟨401, "Invalid password"⟩), st)) ∧
    (∀ u stored, findUserByEmail st email = some u → u.password = some stored →
      jsTruthy u.password = true → bcryptCompare pw stored = true →
      st.insertOk = true →
      ∃ st1, login st email pw device now =
        (.ok ⟨generateRefreshToken u now, generateToken u now⟩, st1)) := by
  refine ⟨?_, ?_, ?_, ?_⟩
  · intro hnone
    simp [login, hnone]
  · intro u hu hpw
    simp [login, hu, hpw]
  · intro u stored hu hstored htru hbc
    have htru2 : jsTruthy (some stored) = true := hstored ▸ htru
    simp [login, hu, hstored, htru2, hbc]
  · intro u stored hu hstored htru hbc hins
    have htru2 : jsTruthy (some stored) = true := hstored ▸ htru
    have h1 : (login st email pw device now).1 =
        .ok ⟨generateRefreshToken u now, generateToken u now⟩ := by
      simp [login, hu, hstored, htru2, hbc, generateAuthResponse, hins]
    refine ⟨(login st email pw device now).2, ?_⟩
    rw [← h1]

/-- C5 (witness): all four precedence branches at concrete inputs: unknown
email 404; federation-only account 400; wrong password 401; correct password
succeeds with a fresh pair. -/
theorem login_precedence_witness :
    login stEmpty "a@x.com" "pw" none 0 =
      (.error (.app ⟨404, "User not found"⟩), stEmpty) ∧
    login stG "g@x.com" "pw" none 0 =
      (.error (.app ⟨400, "Please login with Google"⟩), stG) ∧
    login stA "a@x.com" "wrong" none 0 =
      (.error (.app ⟨401, "Invalid password"⟩), stA) ∧
    ∃ st1, login stA "a@x.com" "pw123456" none 0 =
      (.ok ⟨generateRefreshToken uA 0, generateToken uA 0⟩, st1) :=
  ⟨(login_precedence stEmpty "a@x.com" "pw" none 0).1 rfl,
   (login_precedence stG "g@x.com" "pw" none 0).2.1 uG rfl (by decide),
   (login_precedence stA "a@x.com" "wrong" none 0).2.2.1 uA
     (bcryptHash "pw123456") rfl rfl (by decide) (by decide),
   (login_precedence stA "a@x.com" "pw123456" none 0).2.2.2 uA
     (bcryptHash "pw123456") rfl rfl (by decide) (by decide) rfl⟩

/-- C6: in the resolve-or-link step of a federated login whose verified
email matches an existing identity: when the identity is not yet linked the
step attaches the Google subject id and switches `authProvider` to
`'google'` while preserving every other field — id, email, name, password
hash, avatar, timestamps — and touching no other user and no ledger row;
when the identity is already linked the step mutates nothing at all. -/
theorem google_link_frame (st : DBState) (payload : GooglePayload)
    (now : Millis) (u : User)
    (hfind : findUserByEmail st payload.email = some u) :
    (jsTruthy u.googleId = false →
      (resolveOrCreateGoogleUser st payload now).2.refreshTokens =
          st.refreshTokens ∧
      (∀ v ∈ st.users, v.id ≠ u.id →
        v ∈ (resolveOrCreateGoogleUser st payload now).2.users) ∧
      (∀ v ∈ st.users, v.id = u.id →
        ∃ v' ∈ (resolveOrCreateGoogleUser st payload now).2.users,
          v'.googleId = some payload.sub ∧
          v'.authProvider = some "google" ∧
          v'.id = v.id ∧ v'.email = v.email ∧ v'.name = v.name ∧
          v'.password = v.password ∧ v'.avatar = v.avatar ∧
          v'.lastLoginAt = v.lastLoginAt ∧ v'.createdAt = v.createdAt)) ∧
    (jsTruthy u.googleId = true →
      (resolveOrCreateGoogleUser st payload now).2 = st) := by
  constructor
  · intro hnl
    refine ⟨?_, ?_, ?_⟩
    · simp [resolveOrCreateGoogleUser, hfind, hnl]
    · intro v hv hvne
      simp [resolveOrCreateGoogleUser, hfind, hnl]
      exact ⟨v, hv, by simp [hvne]⟩
    · intro v hv hveq
      refine ⟨{ v with googleId := some payload.sub, authProvider := some "google" },
        ?_, rfl, rfl, rfl, rfl, rfl, rfl, rfl, rfl, rfl⟩
      simp [resolveOrCreateGoogleUser, hfind, hnl]
      exact ⟨v, hv, by simp [hveq]⟩
  · intro hl
    simp [resolveOrCreateGoogleUser, hfind, hl]

/-- C6 (witness): linking `uA` (not yet linked) attaches `gsub` and keeps
the password hash and all other fields; resolving the already-linked `uG`
leaves the state identical. -/
theorem google_link_frame_witness :
    ((resolveOrCreateGoogleUser stA gpA 7).2.refreshTokens = stA.refreshTokens ∧
     ∃ v' ∈ (resolveOrCreateGoogleUser stA gpA 7).2.users,
       v'.googleId = some gpA.sub ∧
       v'.authProvider = some "google" ∧
       v'.id = uA.id ∧ v'.email = uA.email ∧ v'.name = uA.name ∧
       v'.password = uA.password ∧ v'.avatar = uA.avatar ∧
       v'.lastLoginAt = uA.lastLoginAt ∧ v'.createdAt = uA.createdAt) ∧
    (resolveOrCreateGoogleUser stG gpG 7).2 = stG := by
  have h := (google_link_frame stA gpA 7 uA rfl).1 (by decide)
  have h2 := (google_link_frame stG gpG 7 uG rfl).2 (by decide)
  exact ⟨⟨h.1, h.2.2 uA (by decide) rfl⟩, h2⟩

/-- C7 (amended): the ledger enforces no fingerprint uniqueness: whenever
the store is up, `_generateAuthResponse` succeeds and appends its new record
even when a live record with the very same fingerprint already exists,
leaving at least two rows with that fingerprint — no `DuplicateFingerprint`
conflict is ever raised; uniqueness rests only on hash collisions being
cryptographically improbable. -/
theorem store_without_fingerprint_uniqueness (st : DBState) (u : User)
    (device : Option String) (now : Millis)
    (hins : st.insertOk = true)
    (hdup : ∃ r ∈ st.refreshTokens,
      r.tokenHash = hashToken (generateRefreshToken u now) ∧ r.revoked = false) :
    (generateAuthResponse st u device now).1 =
      .ok ⟨generateRefreshToken u now, generateToken u now⟩ ∧
    2 ≤ ((generateAuthResponse st u device now).2.refreshTokens.filter
        (fun x => x.tokenHash == hashToken (generateRefreshToken u now))).length := by
  constructor
  · simp [generateAuthResponse, hins]
  · have hlist : (generateAuthResponse st u device now).2.refreshTokens =
        st.refreshTokens ++
          [{ id := st.nextId
             userId := u.id
             tokenHash := hashToken (generateRefreshToken u now)
             device := some (jsOr device "Unknown Device")
             expiresAt := now + 7 * 24 * 60 * 60 * 1000
             revoked := false
             createdAt := now }] := by
      simp [generateAuthResponse, hins, touchLastLogin]
    rw [hlist, List.filter_append, List.length_append]
    obtain ⟨r, hr, hh, _⟩ := hdup
    have hmem : r ∈ st.refreshTokens.filter
        (fun x => x.tokenHash == hashToken (generateRefreshToken u now)) :=
      List.mem_filter.mpr ⟨hr, by simp [hh]⟩
    have h1 : 1 ≤ (st.refreshTokens.filter
        (fun x => x.tokenHash == hashToken (generateRefreshToken u now))).length :=
      List.length_pos_of_mem hmem
    have h2 : (List.filter
        (fun x => x.tokenHash == hashToken (generateRefreshToken u now))
        [({ id := st.nextId
            userId := u.id
            tokenHash := hashToken (generateRefreshToken u now)
            device := some (jsOr device "Unknown Device")
            expiresAt := now + 7 * 24 * 60 * 60 * 1000
            revoked := false
            createdAt := now } : RefreshTokenRecord)]).length = 1 := by
      simp
    omega

/-- C7 (witness): with `recDup` already holding the colliding fingerprint,
the insert succeeds and two matching rows remain. -/
theorem store_without_fingerprint_uniqueness_witness :
    (generateAuthResponse stDup uA (some "d2") 0).1 =
      .ok ⟨generateRefreshToken uA 0, generateToken uA 0⟩ ∧
    2 ≤ ((generateAuthResponse stDup uA (some "d2") 0).2.refreshTokens.filter
        (fun x => x.tokenHash == hashToken (generateRefreshToken uA 0))).length :=
  store_without_fingerprint_uniqueness stDup uA (some "d2") 0 rfl
    ⟨recDup, by decide, rfl, rfl⟩

/-- C8: the access token is signed with `ACCESS_SECRET` and carries a
15-minute expiry, the refresh token with the distinct `REFRESH_SECRET` and a
7-day expiry, and every successful `_generateAuthResponse` persists a ledger
record whose fingerprint is the new refresh token's hash and whose
`expiresAt` is 7 days after issuance. -/
theorem token_issuance_contract (u : User) (now : Millis) :
    generateToken u now = .jwt ⟨u.id, u.email⟩ .access (now + 15 * 60 * 1000) ∧
    generateRefreshToken u now =
      .jwt ⟨u.id, u.email⟩ .refresh (now + 7 * 24 * 60 * 60 * 1000) ∧
    Secret.access ≠ Secret.refresh ∧
    (∀ st device resp st1, st.insertOk = true →
      generateAuthResponse st u device now = (.ok resp, st1) →
      resp.accessToken = generateToken u now ∧
      resp.refreshToken = generateRefreshToken u now ∧
      ∃ rec ∈ st1.refreshTokens,
        rec.tokenHash = hashToken (generateRefreshToken u now) ∧
        rec.expiresAt = now + 7 * 24 * 60 * 60 * 1000) := by
  refine ⟨rfl, rfl, by decide, ?_⟩
  intro st device resp st1 hins heq
  have h1 : (generateAuthResponse st u device now).1 =
      .ok ⟨generateRefreshToken u now, generateToken u now⟩ := by
    simp [generateAuthResponse, hins]
  have hfst : (generateAuthResponse st u device now).1 = .ok resp :=
    congrArg Prod.fst heq
  rw [h1] at hfst
  have hresp := Except.ok.inj hfst
  have hsnd : (generateAuthResponse st u device now).2 = st1 :=
    congrArg Prod.snd heq
  refine ⟨by rw [← hresp], by rw [← hresp],
    { id := st.nextId
      userId := u.id
      tokenHash := hashToken (generateRefreshToken u now)
      device := some (jsOr device "Unknown Device")
      expiresAt := now + 7 * 24 * 60 * 60 * 1000
      revoked := false
      createdAt := now }, ?_, rfl, rfl⟩
  rw [← hsnd]
  simp [generateAuthResponse, hins, touchLastLogin]

/-- C8 (witness): issuing for `uA` at time 0 gives a 900000-ms access expiry
and a ledger record with the refresh token's fingerprint expiring at
604800000 ms. -/
theorem token_issuance_contract_witness :
    generateToken uA 0 = .jwt ⟨1, "a@x.com"⟩ .access 900000 ∧
    ∃ rec ∈ (generateAuthResponse stA uA none 0).2.refreshTokens,
      rec.tokenHash = hashToken (generateRefreshToken uA 0) ∧
      rec.expiresAt = 604800000 := by
  have h := token_issuance_contract uA 0
  exact ⟨h.1,
    (h.2.2.2 stA none ⟨generateRefreshToken uA 0, generateToken uA 0⟩
      (generateAuthResponse stA uA none 0).2 rfl rfl).2.2⟩

/-- C9 (amended): a successful refresh appends exactly one replacement
record; its device label is `storedDevice || 'Unknown'` — the consumed
record's label when present and nonempty, and `'Unknown'` (not
`'Unknown Device'`) when the stored label is absent, because the refresh
path substitutes `'Unknown'` before `_generateAuthResponse`'s own
`'Unknown Device'` default can apply. -/
theorem refresh_device_label (st : DBState) (t : TokenStr) (now : Millis)
    (p : JwtPayload) (r : RefreshTokenRecord) (u : User)
    (hver : verifyToken t now = .ok p)
    (hfind : findLiveByHash st (hashToken t) = some r)
    (hexp : ¬ r.expiresAt < now)
    (huser : findUserById (deleteRecordById st r.id) r.userId = some u)
    (hins : st.insertOk = true) :
    ∃ rec : RefreshTokenRecord,
      (refresh st t now).2.refreshTokens =
        (deleteRecordById st r.id).refreshTokens ++ [rec] ∧
      rec.tokenHash = hashToken (generateRefreshToken u now) ∧
      rec.device = some (jsOr r.device "Unknown") ∧
      (∀ s, r.device = some s → s ≠ "" → rec.device = some s) ∧
      (r.device = none → rec.device = some "Unknown") := by
  have hne := verifyToken_ok_not_empty hver
  have hins2 : (deleteRecordById st r.id).insertOk = true := hins
  refine ⟨{ id := st.nextId
            userId := u.id
            tokenHash := hashToken (generateRefreshToken u now)
            device := some (jsOr r.device "Unknown")
            expiresAt := now + 7 * 24 * 60 * 60 * 1000
            revoked := false
            createdAt := now }, ?_, rfl, rfl, ?_, ?_⟩
  · have hchain := jsOr_unknown_chain r.device
    simp [refresh, hne, hver, hfind, hexp, huser, generateAuthResponse,
      hins2, touchLastLogin, hchain]
    simp [deleteRecordById]
  · intro s hs hne'
    simp [hs, jsOr, hne']
  · intro hnone
    simp [hnone, jsOr]

/-- C9 (witness): refreshing `tokA`, whose record's device is `NULL`, stores
the replacement with device `"Unknown"`. -/
theorem refresh_device_label_witness :
    ∃ rec : RefreshTokenRecord,
      (refresh stA tokA 5).2.refreshTokens =
        (deleteRecordById stA recA.id).refreshTokens ++ [rec] ∧
      rec.tokenHash = hashToken (generateRefreshToken uA 5) ∧
      rec.device = some (jsOr recA.device "Unknown") ∧
      (∀ s, recA.device = some s → s ≠ "" → rec.device = some s) ∧
      (recA.device = none → rec.device = some "Unknown") :=
  refresh_device_label stA tokA 5 ⟨1, "a@x.com"⟩ recA uA
    rfl rfl (by decide) rfl rfl

/-- C10: a refresh that reaches the consume step deletes the matched record
before the user lookup and before the new pair is persisted: if the record's
user does not exist, or the store rejects the ledger insert, the call
returns an error with no tokens, the consumed record is gone from the final
state, no live record with the presented fingerprint remains, and nothing
restores it. -/
theorem refresh_consume_precedes_issuance (st : DBState) (t : TokenStr)
    (now : Millis) (p : JwtPayload) (r : RefreshTokenRecord)
    (hver : verifyToken t now = .ok p)
    (huniq : st.refreshTokens.filter (liveWithHash (hashToken t)) = [r])
    (hexp : ¬ r.expiresAt < now)
    (hfail : findUserById (deleteRecordById st r.id) r.userId = none ∨
      st.insertOk = false) :
    (∃ e, refresh st t now = (.error e, deleteRecordById st r.id)) ∧
    r ∉ (deleteRecordById st r.id).refreshTokens ∧
    (deleteRecordById st r.id).refreshTokens.filter
      (liveWithHash (hashToken t)) = [] := by
  have hne := verifyToken_ok_not_empty hver
  have hfind : findLiveByHash st (hashToken t) = some r := by
    rw [findLiveByHash, huniq]; rfl
  refine ⟨?_, ?_, ?_⟩
  · rcases hfail with hnone | hinsf
    · exact ⟨.app ⟨404, "User not found"⟩,
        by simp [refresh, hne, hver, hfind, hexp, hnone]⟩
    · cases hu : findUserById (deleteRecordById st r.id) r.userId with
      | none =>
        exact ⟨.app ⟨404, "User not found"⟩,
          by simp [refresh, hne, hver, hfind, hexp, hu]⟩
      | some u =>
        have hins2 : (deleteRecordById st r.id).insertOk = false := hinsf
        exact ⟨.dbDown,
          by simp [refresh, hne, hver, hfind, hexp, hu, generateAuthResponse, hins2]⟩
  · simp [deleteRecordById, List.mem_filter]
  · simp only [deleteRecordById]
    exact filter_delete_of_filter_singleton _ _ _ huniq

/-- C10 (witness): in `stC` the record's user is missing; the refresh at
time 5 consumes the record, fails, and the record stays consumed. -/
theorem refresh_consume_precedes_issuance_witness :
    (∃ e, refresh stC tokA 5 = (.error e, deleteRecordById stC recA.id)) ∧
    recA ∉ (deleteRecordById stC recA.id).refreshTokens ∧
    (deleteRecordById stC recA.id).refreshTokens.filter
      (liveWithHash (hashToken tokA)) = [] :=
  refresh_consume_precedes_issuance stC tokA 5 ⟨1, "a@x.com"⟩ recA
    rfl rfl (by decide) (Or.inl rfl)

end Afk
